import Mathlib

/-!
Shallow embedding of the top-holder aggregation and layout pipeline of
`src/explorer/components/common/TopHoldersBubbleMap.tsx`.

JS numbers are modelled as rationals (`ℚ`) for the data pipeline and as
reals (`ℝ`) for the trigonometric bubble layout; `parseFloat` returning
`NaN` is modelled by `Option ℚ` being `none`, which matches the way the
code only ever observes `NaN` through falsiness (`NaN > 0` is `false`,
`NaN ? _ : _` takes the else branch).  Strings are modelled as `List Char`.
Network interactions are modelled by the `FetchResult` type: a request
either times out (the `AbortController` path of `fetchWithTimeout`, which
surfaces as a thrown `Error('Request timeout')`), fails with some other
network error (also thrown), or produces an HTTP response with an `ok`
flag and an optional parsed JSON body (`none` models a body on which
`response.json()` rejects).  The successive responses of the paginated
`denom_owners` endpoint are modelled as a finite list of `FetchResult`s
consumed one per loop iteration; an exhausted list simply ends pagination.
-/

namespace AkashExplorer

/-- One `{ amount }` coin object as returned by the ledger API. -/
structure Coin where
  amount : List Char
  deriving DecidableEq

/-- One entry of the paginated `denom_owners` listing:
`{ address, balance: { amount } }`. -/
structure RawHolder where
  address : List Char
  balance : Coin
  deriving DecidableEq

/-- Digits-to-number helper for the `parseFloat` model. -/
def digitsToNat (ds : List Char) : ℕ :=
  ds.foldl (fun n c => 10 * n + (c.toNat - '0'.toNat)) 0

/-- Model of the JavaScript `parseFloat` builtin on the strings this code
feeds it: an optional sign followed by the longest prefix of the form
`digits`, `digits.digits` or `.digits`; any trailing characters are
ignored, and `none` models the `NaN` result when no digits are found.
(Exponents, `Infinity` and leading whitespace are not modelled; the ledger
API only produces plain decimal amount strings.) -/
def parseFloatQ (s : List Char) : Option ℚ :=
  let signAndRest : ℚ × List Char :=
    match s with
    | '-' :: r => (-1, r)
    | '+' :: r => (1, r)
    | r => (1, r)
  let intPart := signAndRest.2.span Char.isDigit
  match intPart.2 with
  | '.' :: afterDot =>
    let fracPart := afterDot.span Char.isDigit
    if intPart.1 = [] ∧ fracPart.1 = [] then none
    else some (signAndRest.1 * ((digitsToNat intPart.1 : ℚ) +
      (digitsToNat fracPart.1 : ℚ) / (10 : ℚ) ^ fracPart.1.length))
  | _ =>
    if intPart.1 = [] then none
    else some (signAndRest.1 * (digitsToNat intPart.1 : ℚ))

/-- Supply response body, with the `supplyData?.amount?.amount` optional
access path collapsed into a single optional string. -/
structure SupplyBody where
  amount : Option (List Char)
  deriving DecidableEq

/-- Holders page body: `holdersData?.denom_owners` (an optional list) and
the `holdersData.pagination?.next_key` optional continuation token. -/
structure PageBody where
  denom_owners : Option (List RawHolder)
  next_key : Option (List Char)
  deriving DecidableEq

/-- Outcome of one `fetchWithTimeout` call.  `timeout` is the
`AbortController` firing after 8000 ms (rethrown as
`Error('Request timeout')`), `netError` any other rejection of `fetch`,
and `response ok body` an HTTP response whose JSON body parsed to `body`
(`none` when `response.json()` rejects). -/
inductive FetchResult (α : Type) where
  | timeout
  | netError
  | response (ok : Bool) (body : Option α)
  deriving DecidableEq

/-- The distinct fatal errors `fetchTopHolders` can surface, identified by
the thrown message: `'Request timeout'`, any other network failure,
`'Failed to fetch total supply'`, a `response.json()` rejection, and
`'No holder data received'`. -/
inductive Err where
  | requestTimeout
  | networkError
  | failedSupply
  | jsonParseError
  | noDataError
  deriving DecidableEq

/-- `supplyData?.amount?.amount ? parseFloat(supplyData.amount.amount) / 1000000 : null`.
A missing or empty amount string is falsy, giving `null`; a `NaN` parse is
also collapsed into `none`, which is observationally equivalent since the
code only uses the value through truthiness tests and `toLocaleString`. -/
def totalSupplyValueOf (sb : SupplyBody) : Option ℚ :=
  match sb.amount with
  | some s => if s = [] then none else (parseFloatQ s).map (fun q => q / 1000000)
  | none => none

/-- The supply portion of `fetchTopHolders` (lines 75-83): one timed
request; a non-ok status throws `'Failed to fetch total supply'` before
the body is read; a body that fails to parse as JSON throws from
`supplyResponse.json()`. -/
def fetchSupply (supplyRes : FetchResult SupplyBody) : Except Err (Option ℚ) :=
  match supplyRes with
  | .timeout => .error .requestTimeout
  | .netError => .error .networkError
  | .response ok body =>
    if ok then
      match body with
      | some sb => .ok (totalSupplyValueOf sb)
      | none => .error .jsonParseError
    else .error .failedSupply

/-- Intermediate holder object produced by the first `.map` of the
processing chain: `{ address, balance: parseFloat(...) / 1000000 }`,
with `none` standing for a `NaN` balance. -/
structure MappedHolder where
  address : List Char
  balance : Option ℚ
  deriving DecidableEq

/-- The `.filter(holder => holder.balance > 0)` predicate; `NaN > 0`
evaluates to `false` in JavaScript, so a failed parse is dropped here. -/
def balancePos : Option ℚ → Bool
  | some b => decide (0 < b)
  | none => false

/-- The numeric balance of a post-filter holder (always defined there). -/
def balVal (h : MappedHolder) : ℚ :=
  h.balance.getD 0

/-- Stable descending insertion: `x` is placed before the first element it
strictly dominates or ties with, keeping earlier-fetched records first
among equal balances. -/
def insertDesc (x : MappedHolder) : List MappedHolder → List MappedHolder
  | [] => [x]
  | y :: ys => if balVal y ≤ balVal x then x :: y :: ys else y :: insertDesc x ys

/-- Stable descending sort modelling
`.sort((a, b) => b.balance - a.balance)`; `Array.prototype.sort` is
required to be stable by ECMAScript, and a stable sort under a fixed total
preorder is unique, so this insertion sort computes the same list. -/
def sortDesc : List MappedHolder → List MappedHolder
  | [] => []
  | x :: xs => insertDesc x (sortDesc xs)

/-- `truncateAddress` (lines 163-166): addresses of length at most 20 are
returned unchanged, longer ones become `slice(0, 11) + '...' + slice(-4)`. -/
def truncateAddress (address : List Char) : List Char :=
  if address.length ≤ 20 then address
  else address.take 11 ++ ['.', '.', '.'] ++ address.drop (address.length - 4)

/-- `totalSupplyValue ? (holder.balance / totalSupplyValue) * 100 : 0`:
`null`, `0` and `NaN` supplies are all falsy, yielding `0` without any
division. -/
def percentageOf (balance : ℚ) (totalSupplyValue : Option ℚ) : ℚ :=
  match totalSupplyValue with
  | some t => if t = 0 then 0 else balance / t * 100
  | none => 0

/-- The `Holder` interface of the component. -/
structure Holder where
  address : List Char
  fullAddress : List Char
  balance : ℚ
  percentage : ℚ
  rank : ℕ
  deriving DecidableEq

/-- The final `.map((holder, index) => ({...}))` of the processing chain,
carrying the running index explicitly. -/
def rankMap (totalSupplyValue : Option ℚ) : ℕ → List MappedHolder → List Holder
  | _, [] => []
  | index, h :: rest =>
    { address := truncateAddress h.address
      fullAddress := h.address
      balance := balVal h
      percentage := percentageOf (balVal h) totalSupplyValue
      rank := index + 1 } :: rankMap totalSupplyValue (index + 1) rest

/-- First step of the processing chain:
`.map(holder => ({ address, balance: parseFloat(holder.balance.amount) / 1000000 }))`. -/
def mapHolders (allHolders : List RawHolder) : List MappedHolder :=
  allHolders.map (fun h =>
    { address := h.address
      balance := (parseFloatQ h.balance.amount).map (fun q => q / 1000000) })

/-- Second step: `.filter(holder => holder.balance > 0)`. -/
def filterHolders (l : List MappedHolder) : List MappedHolder :=
  l.filter (fun h => balancePos h.balance)

/-- The whole processing chain of lines 130-146: map, filter, stable
descending sort, `slice(0, 15)`, and the ranking map. -/
def processHolders (allHolders : List RawHolder) (totalSupplyValue : Option ℚ) : List Holder :=
  rankMap totalSupplyValue 0 ((sortDesc (filterHolders (mapHolders allHolders))).take 15)

/-- `const maxHolders = 500` — the performance cap on accumulation. -/
def maxHolders : ℕ := 500

/-- `holdersData.pagination?.next_key != null && holdersData.pagination.next_key !== ''`. -/
def hasMoreOf (pb : PageBody) : Bool :=
  match pb.next_key with
  | some nk => decide (nk ≠ [])
  | none => false

/-- The pagination `while` loop of lines 93-121.  Each iteration consumes
the next response of `pages`; the loop re-enters only while fewer than
`maxHolders` records are accumulated and the previous page announced a
continuation token.  A thrown error (timeout, network failure, or a body
`response.json()` rejects on) is returned as `some err` and propagates to
the enclosing `catch`; a non-ok status or an empty/missing `denom_owners`
list `break`s, keeping the accumulated records. -/
def fetchPagesLoop : List (FetchResult PageBody) → List RawHolder →
    List RawHolder × Option Err
  | [], allHolders => (allHolders, none)
  | page :: rest, allHolders =>
    if allHolders.length < maxHolders then
      match page with
      | .timeout => (allHolders, some .requestTimeout)
      | .netError => (allHolders, some .networkError)
      | .response ok body =>
        if ok then
          match body with
          | none => (allHolders, some .jsonParseError)
          | some pb =>
            match pb.denom_owners with
            | some owners =>
              if 0 < owners.length then
                if hasMoreOf pb then fetchPagesLoop rest (allHolders ++ owners)
                else (allHolders ++ owners, none)
              else (allHolders, none)
            | none => (allHolders, none)
        else (allHolders, none)
    else (allHolders, none)

/-- `fetchTopHolders` (lines 64-161), as a function of the network
environment: the supply response and the successive holder-page
responses.  A `.error e` outcome is the `catch` branch (error state shown,
`setHolders` never called); a `.ok (holders, supply)` outcome is the
success path (`setHolders(processedHolders)`, `dataSource = 'live'`). -/
def fetchTopHolders (supplyRes : FetchResult SupplyBody)
    (pages : List (FetchResult PageBody)) : Except Err (List Holder × Option ℚ) :=
  match fetchSupply supplyRes with
  | .error e => .error e
  | .ok totalSupplyValue =>
    match fetchPagesLoop pages [] with
    | (_, some e) => .error e
    | (allHolders, none) =>
      if allHolders.length = 0 then .error .noDataError
      else .ok (processHolders allHolders totalSupplyValue, totalSupplyValue)

/-- A holder-page response all of whose delivered records fit in `bound`:
the property that every `denom_owners` list the environment returns has at
most `bound` entries (the API is asked for pages of `limit = 100`). -/
def pageSizeBoundOk (bound : ℕ) : FetchResult PageBody → Prop
  | .response _ (some pb) =>
    match pb.denom_owners with
    | some owners => owners.length ≤ bound
    | none => True
  | _ => True

/-- A bubble position as in the component's `BubblePosition` interface. -/
structure BubblePosition where
  left : ℝ
  top : ℝ

/-- `calculateBubblePosition` (lines 229-243).  Note Lean's `x / 0 = 0`
convention only differs from JavaScript for `total = 0`, which the layout
never invokes (it maps over a nonempty holder list). -/
noncomputable def calculateBubblePosition (index total : ℕ) : BubblePosition :=
  let containerWidth : ℝ := 800
  let containerHeight : ℝ := 600
  let padding : ℝ := 100
  let angle : ℝ := (index : ℝ) * 2.4
  let radius : ℝ := ((index : ℝ) / (total : ℝ)) * min containerWidth containerHeight / 2.5
  let x : ℝ := containerWidth / 2 + radius * Real.cos angle
  let y : ℝ := containerHeight / 2 + radius * Real.sin angle
  { left := max padding (min x (containerWidth - padding))
    top := max padding (min y (containerHeight - padding)) }

/-- The layout over a holder list:
`holders.map((holder, index) => calculateBubblePosition(index, holders.length))`,
as performed in the render loop. -/
noncomputable def layout (holders : List Holder) : List BubblePosition :=
  (List.range holders.length).map (fun index => calculateBubblePosition index holders.length)

/-! ### Helper lemmas about the stable descending sort -/

theorem mem_insertDesc {x z : MappedHolder} :
    ∀ {l : List MappedHolder}, z ∈ insertDesc x l → z = x ∨ z ∈ l
  | [], h => by simpa [insertDesc] using h
  | y :: ys, h => by
    rw [insertDesc] at h
    split at h
    · rcases List.mem_cons.mp h with h | h
      · exact Or.inl h
      · exact Or.inr h
    · rcases List.mem_cons.mp h with h | h
      · exact Or.inr (by simp [h])
      · rcases mem_insertDesc h with h | h
        · exact Or.inl h
        · exact Or.inr (List.mem_cons_of_mem y h)

theorem pairwise_insertDesc {x : MappedHolder} :
    ∀ {l : List MappedHolder},
      l.Pairwise (fun a b => balVal b ≤ balVal a) →
      (insertDesc x l).Pairwise (fun a b => balVal b ≤ balVal a)
  | [], _ => by simp [insertDesc]
  | y :: ys, h => by
    obtain ⟨h1, h2⟩ := List.pairwise_cons.mp h
    rw [insertDesc]
    split
    · rename_i hyx
      refine List.pairwise_cons.mpr ⟨fun z hz => ?_, h⟩
      rcases List.mem_cons.mp hz with rfl | hz
      · exact hyx
      · exact le_trans (h1 z hz) hyx
    · rename_i hyx
      refine List.pairwise_cons.mpr ⟨fun z hz => ?_, pairwise_insertDesc h2⟩
      rcases mem_insertDesc hz with rfl | hz
      · exact le_of_lt (not_le.mp hyx)
      · exact h1 z hz

theorem pairwise_sortDesc :
    ∀ l : List MappedHolder, (sortDesc l).Pairwise (fun a b => balVal b ≤ balVal a)
  | [] => by simp [sortDesc]
  | x :: xs => by
    rw [sortDesc]
    exact pairwise_insertDesc (pairwise_sortDesc xs)

theorem filter_insertDesc (x : MappedHolder) (q : ℚ) :
    ∀ l : List MappedHolder,
      (insertDesc x l).filter (fun y => decide (balVal y = q)) =
        if balVal x = q then
          x :: l.filter (fun y => decide (balVal y = q))
        else l.filter (fun y => decide (balVal y = q))
  | [] => by
    by_cases hx : balVal x = q <;> simp [insertDesc, hx]
  | y :: ys => by
    rw [insertDesc]
    split
    · rename_i hyx
      by_cases hx : balVal x = q <;> simp [List.filter_cons, hx]
    · rename_i hyx
      rw [List.filter_cons, List.filter_cons, filter_insertDesc x q ys]
      by_cases hx : balVal x = q
      · have hy : ¬ balVal y = q := fun hy => hyx (le_of_eq (hy.trans hx.symm))
        simp [hx, hy, List.filter_cons]
      · by_cases hy : balVal y = q <;> simp [hx, hy, List.filter_cons]

theorem filter_sortDesc (q : ℚ) :
    ∀ l : List MappedHolder,
      (sortDesc l).filter (fun y => decide (balVal y = q)) =
        l.filter (fun y => decide (balVal y = q))
  | [] => rfl
  | x :: xs => by
    rw [sortDesc, filter_insertDesc x q (sortDesc xs), filter_sortDesc q xs,
      List.filter_cons]
    by_cases hx : balVal x = q <;> simp [hx]

/-! ### Helper lemmas about the ranking map -/

theorem rankMap_map_balance (ts : Option ℚ) :
    ∀ (l : List MappedHolder) (i : ℕ),
      (rankMap ts i l).map Holder.balance = l.map balVal
  | [], _ => rfl
  | h :: rest, i => by
    simp [rankMap, rankMap_map_balance ts rest (i + 1)]

theorem rankMap_map_rank (ts : Option ℚ) :
    ∀ (l : List MappedHolder) (i : ℕ),
      (rankMap ts i l).map Holder.rank = List.range' (i + 1) l.length
  | [], _ => rfl
  | h :: rest, i => by
    rw [List.length_cons, List.range'_succ]
    simp [rankMap, rankMap_map_rank ts rest (i + 1)]

theorem rankMap_length (ts : Option ℚ) :
    ∀ (l : List MappedHolder) (i : ℕ), (rankMap ts i l).length = l.length
  | [], _ => rfl
  | h :: rest, i => by simp [rankMap, rankMap_length ts rest (i + 1)]

theorem rankMap_percentage_eq_zero {z : Holder} :
    ∀ (l : List MappedHolder) (i : ℕ), z ∈ rankMap (some 0) i l → z.percentage = 0
  | [], _, h => by simp [rankMap] at h
  | m :: rest, i, h => by
    rw [rankMap] at h
    rcases List.mem_cons.mp h with rfl | h
    · simp [percentageOf]
    · exact rankMap_percentage_eq_zero rest (i + 1) h

/-! ### Claim theorems -/

/-- C4: for every list of raw balance records the normalized output is
sorted descending by balance, and the sort is stable: for each balance
value, the records carrying that balance appear in the sorted list in
exactly their original fetch order, so repeated runs on identical input
produce identical ordering (the pipeline is a pure function). -/
theorem c4_theorem (allHolders : List RawHolder) (totalSupplyValue : Option ℚ) :
    (processHolders allHolders totalSupplyValue).Pairwise
      (fun a b => b.balance ≤ a.balance) ∧
    ∀ q : ℚ,
      (sortDesc (filterHolders (mapHolders allHolders))).filter
          (fun y => decide (balVal y = q)) =
        (filterHolders (mapHolders allHolders)).filter
          (fun y => decide (balVal y = q)) := by
  constructor
  · have hs := pairwise_sortDesc (filterHolders (mapHolders allHolders))
    have ht := List.Pairwise.sublist (List.take_sublist 15 _) hs
    have hmap : (((sortDesc (filterHolders (mapHolders allHolders))).take 15).map
        balVal).Pairwise (fun a b => b ≤ a) := List.pairwise_map.mpr ht
    rw [← rankMap_map_balance totalSupplyValue _ 0] at hmap
    exact List.pairwise_map.mp hmap
  · exact fun q => filter_sortDesc q _

/-- C5: after parse-failure filtering, dropping nonpositive balances,
descending sort and truncation to the top 15, the rank values of the
output are exactly the contiguous integers `1..length` with no gaps and no
repeats (`List.range' 1 n` is exactly that list), and the output has at
most 15 entries. -/
theorem c5_theorem (allHolders : List RawHolder) (totalSupplyValue : Option ℚ) :
    (processHolders allHolders totalSupplyValue).map Holder.rank =
      List.range' 1 (processHolders allHolders totalSupplyValue).length ∧
    (processHolders allHolders totalSupplyValue).length ≤ 15 := by
  constructor
  · have h := rankMap_map_rank totalSupplyValue
      ((sortDesc (filterHolders (mapHolders allHolders))).take 15) 0
    rw [processHolders, rankMap_length]
    simpa using h
  · rw [processHolders, rankMap_length, List.length_take]
    exact min_le_left _ _

/-- C9: `truncateAddress` returns the input unchanged when its length is
at most 20; otherwise it returns the first 11 characters, an ellipsis of
three dots, and the last 4 characters — a result of length 18, hence at
most 20 — and therefore the function is idempotent. -/
theorem c9_theorem (address : List Char) :
    (address.length ≤ 20 → truncateAddress address = address) ∧
    (20 < address.length →
      truncateAddress address =
        address.take 11 ++ ['.', '.', '.'] ++ address.drop (address.length - 4) ∧
      (truncateAddress address).length ≤ 20) ∧
    truncateAddress (truncateAddress address) = truncateAddress address := by
  by_cases h : address.length ≤ 20
  · refine ⟨fun _ => by simp [truncateAddress, h], fun h2 => absurd h (not_le.mpr h2), ?_⟩
    simp [truncateAddress, h]
  · have hlen : (truncateAddress address).length = 18 := by
      simp [truncateAddress, h, List.length_take, List.length_drop]
      omega
    refine ⟨fun h1 => absurd h1 h, fun _ => ⟨by simp [truncateAddress, h], ?_⟩, ?_⟩
    · rw [hlen]; norm_num
    · set t := truncateAddress address with ht
      simp [truncateAddress, hlen]

/-- Witness for C9 at a concrete 45-character bech32-style address. -/
theorem c9_witness :
    (20 < ("akash1qqqqqqqqqqqqqqqqqqqqqqqqqqqqqqqqqqqqqqq".toList).length ∧
      (truncateAddress ("akash1qqqqqqqqqqqqqqqqqqqqqqqqqqqqqqqqqqqqqqq".toList)).length ≤ 20) ∧
    truncateAddress (truncateAddress ("akash1qqqqqqqqqqqqqqqqqqqqqqqqqqqqqqqqqqqqqqq".toList)) =
      truncateAddress ("akash1qqqqqqqqqqqqqqqqqqqqqqqqqqqqqqqqqqqqqqq".toList) :=
  ⟨⟨by decide,
    ((c9_theorem ("akash1qqqqqqqqqqqqqqqqqqqqqqqqqqqqqqqqqqqqqqq".toList)).2.1 (by decide)).2⟩,
    (c9_theorem ("akash1qqqqqqqqqqqqqqqqqqqqqqqqqqqqqqqqqqqqqqq".toList)).2.2⟩

/-! ### Helper lemmas about the pagination loop and the whole cycle -/

theorem fetchPagesLoop_timeout (rest : List (FetchResult PageBody))
    (acc : List RawHolder) (h : acc.length < maxHolders) :
    fetchPagesLoop (.timeout :: rest) acc = (acc, some .requestTimeout) := by
  simp [fetchPagesLoop, h]

theorem fetchPagesLoop_break_of_notOk (body : Option PageBody)
    (rest : List (FetchResult PageBody)) (acc : List RawHolder)
    (h : acc.length < maxHolders) :
    fetchPagesLoop (.response false body :: rest) acc = (acc, none) := by
  simp [fetchPagesLoop, h]

theorem fetchPagesLoop_break_of_empty (pb : PageBody)
    (rest : List (FetchResult PageBody)) (acc : List RawHolder)
    (h : acc.length < maxHolders)
    (he : pb.denom_owners = none ∨ pb.denom_owners = some []) :
    fetchPagesLoop (.response true (some pb) :: rest) acc = (acc, none) := by
  rcases he with he | he <;> simp [fetchPagesLoop, h, he]

theorem fetchPagesLoop_cons_more (pb : PageBody) (owners : List RawHolder)
    (rest : List (FetchResult PageBody)) (acc : List RawHolder)
    (h : acc.length < maxHolders) (ho : pb.denom_owners = some owners)
    (h0 : 0 < owners.length) (hm : hasMoreOf pb = true) :
    fetchPagesLoop (.response true (some pb) :: rest) acc =
      fetchPagesLoop rest (acc ++ owners) := by
  simp [fetchPagesLoop, h, ho, h0, hm]

theorem fetchTopHolders_ok (sb : SupplyBody)
    (pages : List (FetchResult PageBody)) (acc : List RawHolder)
    (h : fetchPagesLoop pages [] = (acc, none)) (hne : acc ≠ []) :
    fetchTopHolders (.response true (some sb)) pages =
      .ok (processHolders acc (totalSupplyValueOf sb), totalSupplyValueOf sb) := by
  have hlen : ¬ acc.length = 0 := fun hz => hne (List.length_eq_zero.mp hz)
  simp [fetchTopHolders, fetchSupply, h, hlen]

theorem fetchTopHolders_error (sb : SupplyBody)
    (pages : List (FetchResult PageBody)) (acc : List RawHolder) (e : Err)
    (h : fetchPagesLoop pages [] = (acc, some e)) :
    fetchTopHolders (.response true (some sb)) pages = .error e := by
  simp [fetchTopHolders, fetchSupply, h]

/-- C1 (amended): an `HttpError` (non-ok status) on a later holder page
stops pagination early without discarding the already-accumulated
records, which are still passed downstream and the cycle completes with
partial results; but a `TimeoutError` on a later holder page propagates
to the enclosing catch as a fatal error: the cycle enters the error state
and the accumulated records are discarded. -/
theorem c1_theorem :
    (∀ (body : Option PageBody) (rest : List (FetchResult PageBody))
        (acc : List RawHolder), acc.length < maxHolders →
      fetchPagesLoop (.response false body :: rest) acc = (acc, none)) ∧
    (∀ (sb : SupplyBody) (owners : List RawHolder) (nk : List Char)
        (body : Option PageBody) (rest : List (FetchResult PageBody)),
      0 < owners.length → owners.length < maxHolders → nk ≠ [] →
      fetchTopHolders (.response true (some sb))
          (.response true (some ⟨some owners, some nk⟩) ::
            .response false body :: rest) =
        .ok (processHolders owners (totalSupplyValueOf sb), totalSupplyValueOf sb)) ∧
    (∀ (sb : SupplyBody) (owners : List RawHolder) (nk : List Char)
        (rest : List (FetchResult PageBody)),
      0 < owners.length → owners.length < maxHolders → nk ≠ [] →
      fetchTopHolders (.response true (some sb))
          (.response true (some ⟨some owners, some nk⟩) :: .timeout :: rest) =
        .error .requestTimeout) := by
  refine ⟨fetchPagesLoop_break_of_notOk, ?_, ?_⟩
  · intro sb owners nk body rest h0 h1 h2
    refine fetchTopHolders_ok sb _ owners ?_ (List.length_pos.mp h0)
    rw [fetchPagesLoop_cons_more ⟨some owners, some nk⟩ owners _ [] (by simp [maxHolders])
      rfl h0 (by simp [hasMoreOf, h2])]
    simpa using fetchPagesLoop_break_of_notOk body rest owners h1
  · intro sb owners nk rest h0 h1 h2
    refine fetchTopHolders_error sb _ owners .requestTimeout ?_
    rw [fetchPagesLoop_cons_more ⟨some owners, some nk⟩ owners _ [] (by simp [maxHolders])
      rfl h0 (by simp [hasMoreOf, h2])]
    simpa using fetchPagesLoop_timeout rest owners h1

/-- C1 (counterexample): one holder page succeeds (with a continuation
token) and the next page times out; the claim demands that the cycle
complete with the accumulated partial results, but the thrown
`'Request timeout'` reaches the enclosing catch, the cycle ends in the
error state, and the accumulated record is not passed downstream. -/
theorem c1_counterexample :
    fetchTopHolders (.response true (some ⟨some ['1']⟩))
        [.response true (some ⟨some [⟨['a'], ⟨['5']⟩⟩], some ['k']⟩), .timeout] =
      .error .requestTimeout ∧
    fetchTopHolders (.response true (some ⟨some ['1']⟩))
        [.response true (some ⟨some [⟨['a'], ⟨['5']⟩⟩], some ['k']⟩), .timeout] ≠
      .ok (processHolders [⟨['a'], ⟨['5']⟩⟩] (totalSupplyValueOf ⟨some ['1']⟩),
        totalSupplyValueOf ⟨some ['1']⟩) := by
  have heq : fetchTopHolders (.response true (some ⟨some ['1']⟩))
      [.response true (some ⟨some [⟨['a'], ⟨['5']⟩⟩], some ['k']⟩), .timeout] =
      .error .requestTimeout := rfl
  exact ⟨heq, fun hok => Except.noConfusion (heq.symm.trans hok)⟩

/-- C1 (witness): the amended theorem applied at concrete inputs — an
HTTP failure on the very first page keeps the (empty) accumulation, a
one-record first page followed by an HTTP failure yields partial results
downstream, and the same first page followed by a timeout is fatal. -/
theorem c1_witness :
    ((([] : List RawHolder).length < maxHolders ∧
      fetchPagesLoop [.response false none] [] = ([], none)) ∧
     fetchTopHolders (.response true (some ⟨some ['9']⟩))
         [.response true (some ⟨some [⟨['a'], ⟨['5']⟩⟩], some ['k']⟩),
           .response false none] =
       .ok (processHolders [⟨['a'], ⟨['5']⟩⟩] (totalSupplyValueOf ⟨some ['9']⟩),
         totalSupplyValueOf ⟨some ['9']⟩)) ∧
    fetchTopHolders (.response true (some ⟨some ['9']⟩))
        [.response true (some ⟨some [⟨['a'], ⟨['5']⟩⟩], some ['k']⟩), .timeout] =
      .error .requestTimeout :=
  ⟨⟨⟨by decide, c1_theorem.1 none [] [] (by decide)⟩,
    c1_theorem.2.1 ⟨some ['9']⟩ [⟨['a'], ⟨['5']⟩⟩] ['k'] none []
      (by decide) (by decide) (by decide)⟩,
    c1_theorem.2.2 ⟨some ['9']⟩ [⟨['a'], ⟨['5']⟩⟩] ['k'] []
      (by decide) (by decide) (by decide)⟩

/-- C2 (amended): a first holder-page request that times out fails that
page with `TimeoutError` and the overall cycle fails with that same
propagated `TimeoutError` — not with `NoDataError`, which is only raised
when pagination finishes without a thrown error and zero records were
accumulated. -/
theorem c2_theorem :
    (∀ (sb : SupplyBody) (rest : List (FetchResult PageBody)),
      fetchTopHolders (.response true (some sb)) (.timeout :: rest) =
        .error .requestTimeout) ∧
    (∀ (sb : SupplyBody) (pages : List (FetchResult PageBody)),
      fetchPagesLoop pages [] = ([], none) →
      fetchTopHolders (.response true (some sb)) pages = .error .noDataError) := by
  constructor
  · intro sb rest
    exact fetchTopHolders_error sb _ [] .requestTimeout
      (fetchPagesLoop_timeout rest [] (by simp [maxHolders]))
  · intro sb pages h
    simp [fetchTopHolders, fetchSupply, h]

/-- C2 (counterexample): with the first (and only) holder-page request
timing out, the cycle fails with the propagated `'Request timeout'`
error, not with the claimed `NoDataError`. -/
theorem c2_counterexample :
    fetchTopHolders (.response true (some ⟨some ['1']⟩)) [.timeout] =
      .error .requestTimeout ∧
    ¬ fetchTopHolders (.response true (some ⟨some ['1']⟩)) [.timeout] =
      .error .noDataError := by
  have heq : fetchTopHolders (.response true (some ⟨some ['1']⟩)) [.timeout] =
      .error .requestTimeout := rfl
  exact ⟨heq, fun h => Err.noConfusion (Except.error.inj (heq.symm.trans h))⟩

/-- C2 (witness): the amended theorem applied at concrete inputs — a
timed-out first page gives the timeout error, and a clean first page with
an empty result list gives `NoDataError`. -/
theorem c2_witness :
    fetchTopHolders (.response true (some ⟨some ['1']⟩)) [.timeout] =
      .error .requestTimeout ∧
    (fetchPagesLoop [.response true (some ⟨some [], none⟩)] [] = ([], none) ∧
      fetchTopHolders (.response true (some ⟨some ['1']⟩))
        [.response true (some ⟨some [], none⟩)] = .error .noDataError) :=
  ⟨c2_theorem.1 ⟨some ['1']⟩ [],
    ⟨by decide, c2_theorem.2 ⟨some ['1']⟩ _ (by decide)⟩⟩

/-- C3 (amended): the accumulated record count is below `maxRecords = 500`
whenever a new page is requested, and once it reaches 500 no further page
is fetched; but the cap is checked only before a fetch, so the final
count can overshoot it by up to one page: if every delivered page holds
at most `bound` records, the accumulation never exceeds `499 + bound`
(599 for the requested page limit of 100). -/
theorem c3_theorem (bound : ℕ) :
    ∀ (pages : List (FetchResult PageBody)) (acc : List RawHolder),
      (∀ r ∈ pages, pageSizeBoundOk bound r) →
      (fetchPagesLoop pages acc).1.length ≤ max acc.length (maxHolders - 1 + bound)
  | [], acc, _ => by
    simp [fetchPagesLoop]
  | page :: rest, acc, h => by
    have hhead := h page (List.mem_cons_self page rest)
    have htail : ∀ r ∈ rest, pageSizeBoundOk bound r :=
      fun r hr => h r (List.mem_cons_of_mem page hr)
    by_cases hlt : acc.length < maxHolders
    · cases page with
      | timeout =>
        simp [fetchPagesLoop, hlt]
      | netError =>
        simp [fetchPagesLoop, hlt]
      | response ok body =>
        cases ok with
        | false =>
          simp [fetchPagesLoop, hlt]
        | true =>
          cases body with
          | none =>
            simp [fetchPagesLoop, hlt]
          | some pb =>
            cases ho : pb.denom_owners with
            | none =>
              simp [fetchPagesLoop, hlt, ho]
            | some owners =>
              have hsize : owners.length ≤ bound := by
                simpa [pageSizeBoundOk, ho] using hhead
              have h500 : maxHolders = 500 := rfl
              by_cases h0 : 0 < owners.length
              · by_cases hm : hasMoreOf pb = true
                · have ih := c3_theorem bound rest (acc ++ owners) htail
                  rw [List.length_append] at ih
                  rw [fetchPagesLoop_cons_more pb owners rest acc hlt ho h0 hm]
                  rw [h500] at ih hlt ⊢
                  omega
                · have hm2 : hasMoreOf pb = false := by
                    cases hmv : hasMoreOf pb
                    · rfl
                    · exact absurd hmv hm
                  have hstep : fetchPagesLoop
                      (FetchResult.response true (some pb) :: rest) acc =
                      (acc ++ owners, none) := by
                    simp [fetchPagesLoop, hlt, ho, h0, hm2]
                  rw [hstep]
                  rw [h500] at hlt ⊢
                  simp only [List.length_append]
                  omega
              · simp [fetchPagesLoop, hlt, ho, h0]
    · simp [fetchPagesLoop, hlt]

/-- C3 (counterexample): six consecutive successful pages of 99 records
each (all within the requested page limit of 100, all announcing a
continuation token) leave the pagination loop with 594 accumulated
records — the accumulated count exceeds the claimed hard cap of 500. -/
theorem c3_counterexample :
    500 < (fetchPagesLoop
        (List.replicate 6 (.response true (some
          ⟨some (List.replicate 99 (⟨['a'], ⟨['5']⟩⟩ : RawHolder)), some ['k']⟩)))
        []).1.length := by
  decide

/-- C3 (witness): the amended bound applied to a concrete one-page
environment whose single page carries one record. -/
theorem c3_witness :
    (∀ r ∈ [FetchResult.response true (some
        (⟨some [⟨['a'], ⟨['5']⟩⟩], none⟩ : PageBody))], pageSizeBoundOk 100 r) ∧
    (fetchPagesLoop [FetchResult.response true (some
        (⟨some [⟨['a'], ⟨['5']⟩⟩], none⟩ : PageBody))] []).1.length ≤
      max ([] : List RawHolder).length (maxHolders - 1 + 100) := by
  have hb : ∀ r ∈ [FetchResult.response true (some
      (⟨some [⟨['a'], ⟨['5']⟩⟩], none⟩ : PageBody))], pageSizeBoundOk 100 r := by
    intro r hr
    rw [List.mem_singleton] at hr
    subst hr
    show (1 : ℕ) ≤ 100
    norm_num
  exact ⟨hb, c3_theorem 100 _ [] hb⟩

/-- C6: the supply fetch fails whenever the endpoint returns a non-success
status (the thrown `'Failed to fetch total supply'`, the code's
realization of `FetchError`) or a body that cannot be parsed (the
rejection of `supplyResponse.json()`), any such supply failure aborts the
whole cycle immediately — whatever the holder pages would have returned —
and on success the minor-unit amount string is parsed and divided by
10^6. -/
theorem c6_theorem (ok : Bool) (body : Option SupplyBody)
    (pages : List (FetchResult PageBody)) :
    (ok = false →
      fetchSupply (.response ok body) = .error .failedSupply ∧
      fetchTopHolders (.response ok body) pages = .error .failedSupply) ∧
    (ok = true → body = none →
      fetchSupply (.response ok body) = .error .jsonParseError ∧
      fetchTopHolders (.response ok body) pages = .error .jsonParseError) ∧
    (∀ (s : List Char) (q : ℚ), s ≠ [] → parseFloatQ s = some q →
      fetchSupply (.response true (some ⟨some s⟩)) = .ok (some (q / 1000000))) := by
  refine ⟨fun h => ?_, fun h h2 => ?_, fun s q hs hq => ?_⟩
  · subst h; exact ⟨rfl, rfl⟩
  · subst h; subst h2; exact ⟨rfl, rfl⟩
  · simp [fetchSupply, totalSupplyValueOf, hs, hq]

/-- C6 (witness): a non-ok supply response and an unparseable supply body
each abort a concrete cycle, and the amount string `"5"` is converted to
`5 / 10^6` major units. -/
theorem c6_witness :
    ((false : Bool) = false ∧
      fetchTopHolders (.response false none) [] = .error .failedSupply) ∧
    ((none : Option SupplyBody) = none ∧
      fetchSupply (.response true (none : Option SupplyBody)) =
        .error .jsonParseError) ∧
    ((['5'] : List Char) ≠ [] ∧ parseFloatQ ['5'] = some 5 ∧
      fetchSupply (.response true (some ⟨some ['5']⟩)) =
        .ok (some (5 / 1000000))) :=
  ⟨⟨rfl, ((c6_theorem false none []).1 rfl).2⟩,
    ⟨rfl, ((c6_theorem true none []).2.1 rfl rfl).1⟩,
    ⟨by decide, by simp [parseFloatQ, List.span, List.span.loop, digitsToNat],
      (c6_theorem true (some ⟨some ['5']⟩) []).2.2 ['5'] 5 (by decide)
        (by simp [parseFloatQ, List.span, List.span.loop, digitsToNat])⟩⟩

/-- C7: for every holder list with at least one holder, the layout yields
exactly one position per holder, and every position's coordinates are
clamped into `[padding, dimension - padding]` inclusive — `[100, 700]`
horizontally and `[100, 500]` vertically on the 800 x 600 canvas. -/
theorem c7_theorem (holders : List Holder) (_hcount : 1 ≤ holders.length) :
    (layout holders).length = holders.length ∧
    ∀ p ∈ layout holders,
      (100 ≤ p.left ∧ p.left ≤ 800 - 100) ∧
      (100 ≤ p.top ∧ p.top ≤ 600 - 100) := by
  constructor
  · simp [layout]
  · intro p hp
    obtain ⟨i, hi, rfl⟩ := List.mem_map.mp hp
    simp only [calculateBubblePosition]
    exact ⟨⟨le_max_left _ _, max_le (by norm_num) (min_le_right _ _)⟩,
      le_max_left _ _, max_le (by norm_num) (min_le_right _ _)⟩

/-- C7 (witness): the layout bounds at a concrete singleton holder list. -/
theorem c7_witness :
    1 ≤ [(⟨[], [], 0, 0, 1⟩ : Holder)].length ∧
    ((layout [(⟨[], [], 0, 0, 1⟩ : Holder)]).length =
        [(⟨[], [], 0, 0, 1⟩ : Holder)].length ∧
      ∀ p ∈ layout [(⟨[], [], 0, 0, 1⟩ : Holder)],
        (100 ≤ p.left ∧ p.left ≤ 800 - 100) ∧
        (100 ≤ p.top ∧ p.top ≤ 600 - 100)) :=
  ⟨by decide, c7_theorem [(⟨[], [], 0, 0, 1⟩ : Holder)] (by decide)⟩

/-- C8: whenever the previous page announced a continuation token but the
next page returns an empty (or missing) `denom_owners` list, the
pagination loop terminates (the model is a total function, so every run
terminates) with the records accumulated from earlier pages preserved and
passed downstream to normalization. -/
theorem c8_theorem (sb : SupplyBody) (owners : List RawHolder)
    (nk : List Char) (pb2 : PageBody) (rest : List (FetchResult PageBody))
    (h0 : 0 < owners.length) (h1 : owners.length < maxHolders) (h2 : nk ≠ [])
    (he : pb2.denom_owners = none ∨ pb2.denom_owners = some []) :
    fetchTopHolders (.response true (some sb))
        (.response true (some ⟨some owners, some nk⟩) ::
          .response true (some pb2) :: rest) =
      .ok (processHolders owners (totalSupplyValueOf sb), totalSupplyValueOf sb) := by
  refine fetchTopHolders_ok sb _ owners ?_ (List.length_pos.mp h0)
  rw [fetchPagesLoop_cons_more ⟨some owners, some nk⟩ owners _ [] (by simp [maxHolders])
    rfl h0 (by simp [hasMoreOf, h2])]
  simpa using fetchPagesLoop_break_of_empty pb2 rest owners h1 he

/-- C8 (witness): a concrete run — first page carries one record and a
continuation token, second page is `200 OK` with an empty result list;
the record from the first page reaches normalization. -/
theorem c8_witness :
    ((0 < ([⟨['a'], ⟨['5']⟩⟩] : List RawHolder).length ∧
      ([⟨['a'], ⟨['5']⟩⟩] : List RawHolder).length < maxHolders) ∧
     ((['k'] : List Char) ≠ [] ∧
      ((⟨some [], none⟩ : PageBody).denom_owners = none ∨
        (⟨some [], none⟩ : PageBody).denom_owners = some []))) ∧
    fetchTopHolders (.response true (some ⟨some ['9']⟩))
        [.response true (some ⟨some [⟨['a'], ⟨['5']⟩⟩], some ['k']⟩),
          .response true (some ⟨some [], none⟩)] =
      .ok (processHolders [⟨['a'], ⟨['5']⟩⟩] (totalSupplyValueOf ⟨some ['9']⟩),
        totalSupplyValueOf ⟨some ['9']⟩) :=
  ⟨⟨⟨by decide, by decide⟩, ⟨by decide, Or.inr rfl⟩⟩,
    c8_theorem ⟨some ['9']⟩ [⟨['a'], ⟨['5']⟩⟩] ['k'] ⟨some [], none⟩ []
      (by decide) (by decide) (by decide) (Or.inr rfl)⟩

/-- C10: when the supply endpoint responds with an amount string that
parses to exactly 0, the falsy guard `totalSupplyValue ? ... : 0` skips
the division entirely, so every holder's percentage is computed as 0 (no
division by zero takes place in the model, mirroring the absence of
`Infinity`/`NaN` in the code) and the refresh cycle still completes
successfully. -/
theorem c10_theorem (s : List Char) (pages : List (FetchResult PageBody))
    (acc : List RawHolder) (h1 : s ≠ []) (h2 : parseFloatQ s = some 0)
    (h3 : fetchPagesLoop pages [] = (acc, none)) (h4 : acc ≠ []) :
    fetchTopHolders (.response true (some ⟨some s⟩)) pages =
      .ok (processHolders acc (some 0), some 0) ∧
    ∀ z ∈ processHolders acc (some 0), z.percentage = 0 := by
  have hts : totalSupplyValueOf ⟨some s⟩ = some 0 := by
    simp [totalSupplyValueOf, h1, h2]
  constructor
  · have h := fetchTopHolders_ok ⟨some s⟩ pages acc h3 h4
    rwa [hts] at h
  · intro z hz
    exact rankMap_percentage_eq_zero _ 0 hz

/-- C10 (witness): a concrete cycle whose supply amount is the string
`"0"` completes successfully and assigns percentage 0 to its holder. -/
theorem c10_witness :
    ((['0'] : List Char) ≠ [] ∧ parseFloatQ ['0'] = some 0 ∧
      fetchPagesLoop [.response true (some ⟨some [⟨['a'], ⟨['7']⟩⟩], none⟩)] [] =
        ([⟨['a'], ⟨['7']⟩⟩], none) ∧
      ([⟨['a'], ⟨['7']⟩⟩] : List RawHolder) ≠ []) ∧
    (fetchTopHolders (.response true (some ⟨some ['0']⟩))
        [.response true (some ⟨some [⟨['a'], ⟨['7']⟩⟩], none⟩)] =
      .ok (processHolders [⟨['a'], ⟨['7']⟩⟩] (some 0), some 0) ∧
    ∀ z ∈ processHolders [⟨['a'], ⟨['7']⟩⟩] (some 0), z.percentage = 0) :=
  ⟨⟨by decide, by simp [parseFloatQ, List.span, List.span.loop, digitsToNat],
      by decide, by decide⟩,
    c10_theorem ['0'] [.response true (some ⟨some [⟨['a'], ⟨['7']⟩⟩], none⟩)]
      [⟨['a'], ⟨['7']⟩⟩] (by decide)
      (by simp [parseFloatQ, List.span, List.span.loop, digitsToNat])
      (by decide) (by decide)⟩

end AkashExplorer
